import Mathlib

/-!
Verification of the scrollbar synchronization engine of `bevy_scrollbar`.

The numeric code (src/src/scrollbar.rs, src/src/lib.rs) computes over `f32`;
here every `f32` quantity is embedded as a rational number `ℚ`, so the
algebraic content of the algorithms is modelled exactly.  Rust's fallible
operations (the panicking `px` unwrapper, `f32::clamp` which panics when
`min > max`, and `Query::get(..).unwrap()`) are embedded as `Option` /
explicit outcome values.
-/

namespace BevyScrollbar

/-- Embedding of `bevy_ui`'s `OverflowAxis` enum. -/
inductive OverflowAxis
  | Visible
  | Clip
  | Hidden
  | Scroll
deriving DecidableEq, Repr

/-- Embedding of `bevy_ui`'s `Overflow { x, y }`. -/
structure Overflow where
  x : OverflowAxis
  y : OverflowAxis
deriving DecidableEq, Repr

/-- Embedding of `Overflow::scroll_y()`: x stays at its default (`Visible`), y is `Scroll`. -/
def Overflow.scroll_y : Overflow :=
  { x := OverflowAxis.Visible, y := OverflowAxis.Scroll }

/-- Embedding of `bevy_ui`'s `Val` enum (numeric payloads as `ℚ`). -/
inductive Val
  | Auto
  | Px (v : ℚ)
  | Percent (v : ℚ)
  | Vw (v : ℚ)
  | Vh (v : ℚ)
  | VMin (v : ℚ)
  | VMax (v : ℚ)
deriving DecidableEq, Repr

/-- Constant `Val::ZERO`, which is `Val::Px(0.0)`. -/
def Val.ZERO : Val := Val.Px 0

/-- Embedding of `bevy_ui`'s `UiRect` (the four margins used by the thumb). -/
structure UiRect where
  left : Val
  right : Val
  top : Val
  bottom : Val
deriving DecidableEq, Repr

/-- A 2D vector of rationals, standing in for `Vec2`. -/
structure Vec2 where
  x : ℚ
  y : ℚ
deriving DecidableEq, Repr

/-- Border insets of a computed node (`ComputedNode::border`), physical pixels. -/
structure BorderRect where
  left : ℚ
  right : ℚ
  top : ℚ
  bottom : ℚ
deriving DecidableEq, Repr

/-- The fields of `bevy_ui`'s `Node` component that the scrollbar code reads
or writes: the overflow configuration, the margin (thumb position), and the
width/height (thumb length). -/
structure Node where
  overflow : Overflow
  margin : UiRect
  width : Val
  height : Val
deriving DecidableEq, Repr

/-- The fields of `bevy_ui`'s `ComputedNode` read by the scrollbar code:
computed size, content size and border in physical pixels, plus the inverse
device-scale factor. -/
structure ComputedNode where
  size : Vec2
  content_size : Vec2
  border : BorderRect
  inverse_scale_factor : ℚ
deriving DecidableEq, Repr

/-- Embedding of `bevy_ui`'s `ScrollPosition` (logical pixels); `offset_x`/`offset_y` in
src/src/scrollbar.rs and `.x`/`.y` in src/src/lib.rs name the same two
fields. -/
structure ScrollPosition where
  x : ℚ
  y : ℚ
deriving DecidableEq, Repr

/-- Function `px` from src/src/scrollbar.rs: unwraps a `Val::Px` value and panics on
every other variant.  The panic is embedded as `none`. -/
def px (val : Val) : Option ℚ :=
  match val with
  | Val.Px p => some p
  | _ => none

/-- The components the `scroll` system reads and writes, gathered after its
three query lookups succeed: the scrollable's `ScrollPosition`, `Node` and
`ComputedNode`, the track's `ComputedNode`, and the thumb's `Node` and
`ComputedNode`. -/
structure ScrollState where
  pos : ScrollPosition
  scrollable_node : Node
  scrollable_cnode : ComputedNode
  track_cnode : ComputedNode
  thumb_node : Node
  thumb_cnode : ComputedNode
deriving DecidableEq, Repr

/-- The `scroll` system of src/src/scrollbar.rs (lines 242-292), after its
lookups succeeded: subtracts `scroll` from the offset along the active axis
and moves the thumb margin by `ratio * scroll`, clamped to
`[0, inverse_scale_factor * track_scroll_extent]`.  `none` embeds the panic
of `px` on a non-`Px` margin. -/
def scroll (s : ScrollState) (scrollAmount : ℚ) : Option ScrollState :=
  if s.scrollable_node.overflow.y = OverflowAxis.Scroll then
    let pos' : ScrollPosition := { s.pos with y := s.pos.y - scrollAmount }
    let track_cnode_scroll_height : ℚ :=
      s.track_cnode.size.y -
        (s.track_cnode.border.top + s.track_cnode.border.bottom + s.thumb_cnode.size.y)
    let scrollable_cnode_scroll_height : ℚ :=
      s.scrollable_cnode.size.y - s.scrollable_cnode.content_size.y
    let ratio : ℚ := track_cnode_scroll_height / scrollable_cnode_scroll_height
    let track_scroll : ℚ := ratio * scrollAmount
    match px s.thumb_node.margin.top with
    | none => none
    | some top_margin =>
      let top_margin_max : ℚ := s.track_cnode.inverse_scale_factor * track_cnode_scroll_height
      let top_margin' : ℚ := max 0 (min top_margin_max (top_margin + track_scroll))
      some { s with
        pos := pos'
        thumb_node :=
          { s.thumb_node with margin := { s.thumb_node.margin with top := Val.Px top_margin' } } }
  else if s.scrollable_node.overflow.x = OverflowAxis.Scroll then
    let pos' : ScrollPosition := { s.pos with x := s.pos.x - scrollAmount }
    let track_cnode_scroll_width : ℚ :=
      s.track_cnode.size.x -
        (s.track_cnode.border.left + s.track_cnode.border.right + s.thumb_cnode.size.x)
    let scrollable_cnode_scroll_width : ℚ :=
      s.scrollable_cnode.size.x - s.scrollable_cnode.content_size.x
    let ratio : ℚ := track_cnode_scroll_width / scrollable_cnode_scroll_width
    let track_scroll : ℚ := ratio * scrollAmount
    match px s.thumb_node.margin.left with
    | none => none
    | some left_margin =>
      let left_margin_max : ℚ := s.track_cnode.inverse_scale_factor * track_cnode_scroll_width
      let left_margin' : ℚ := max 0 (min left_margin_max (left_margin + track_scroll))
      some { s with
        pos := pos'
        thumb_node :=
          { s.thumb_node with margin := { s.thumb_node.margin with left := Val.Px left_margin' } } }
  else
    some s

/-- Rust's `f32::clamp(x, lo, hi)`: panics (here `none`) when `lo > hi`. -/
def rustClamp (x lo hi : ℚ) : Option ℚ :=
  if lo > hi then none else some (max lo (min hi x))

/-- System `update_scroll_and_thumb_positions` of src/src/lib.rs (lines 221-267),
after its lookups succeeded: clamps `ScrollPosition` along the active axis to
`[0, inverse_scale_factor * (content_size - size)]` and recomputes the thumb
margin proportionally.  `none` embeds the panic of `f32::clamp` when the
scroll length is negative. -/
def update_scroll_and_thumb_positions (s : ScrollState) : Option ScrollState :=
  if s.scrollable_node.overflow.y = OverflowAxis.Scroll then
    let scaled_scroll_length : ℚ := s.scrollable_cnode.content_size.y - s.scrollable_cnode.size.y
    let scroll_length : ℚ := s.scrollable_cnode.inverse_scale_factor * scaled_scroll_length
    match rustClamp s.pos.y 0 scroll_length with
    | none => none
    | some y' =>
      let margin_top : Val :=
        if scroll_length ≤ 0 then Val.ZERO
        else
          let ratio : ℚ := y' / scroll_length
          let scaled_drag_length : ℚ :=
            s.track_cnode.size.y -
              (s.track_cnode.border.top + s.track_cnode.border.bottom + s.thumb_cnode.size.y)
          let drag_length : ℚ := s.track_cnode.inverse_scale_factor * scaled_drag_length
          Val.Px (ratio * drag_length)
      some { s with
        pos := { s.pos with y := y' }
        thumb_node :=
          { s.thumb_node with margin := { s.thumb_node.margin with top := margin_top } } }
  else if s.scrollable_node.overflow.x = OverflowAxis.Scroll then
    let scaled_scroll_length : ℚ := s.scrollable_cnode.content_size.x - s.scrollable_cnode.size.x
    let scroll_length : ℚ := s.scrollable_cnode.inverse_scale_factor * scaled_scroll_length
    match rustClamp s.pos.x 0 scroll_length with
    | none => none
    | some x' =>
      let margin_left : Val :=
        if scroll_length ≤ 0 then Val.ZERO
        else
          let ratio : ℚ := x' / scroll_length
          let scaled_drag_length : ℚ :=
            s.track_cnode.size.x -
              (s.track_cnode.border.left + s.track_cnode.border.right + s.thumb_cnode.size.x)
          let drag_length : ℚ := s.track_cnode.inverse_scale_factor * scaled_drag_length
          Val.Px (ratio * drag_length)
      some { s with
        pos := { s.pos with x := x' }
        thumb_node :=
          { s.thumb_node with margin := { s.thumb_node.margin with left := margin_left } } }
  else
    some s

/-- The scroll direction enum local to `spawn_thumb_and_observers`. -/
inductive ScrollDirection
  | Vertical
  | Horizontal
deriving DecidableEq, Repr

/-- The axis-resolution match of `spawn_thumb_and_observers`
(src/src/scrollbar.rs lines 81-88): matches on
`(node.overflow.x, node.overflow.y)`, preferring an already-`Scroll` y axis,
then an already-`Scroll` x axis, and otherwise mutating the node's overflow
to `Overflow::scroll_y()` and defaulting to vertical.  Returns the chosen
direction together with the (possibly mutated) overflow. -/
def resolve_direction (o : Overflow) : ScrollDirection × Overflow :=
  match o.x, o.y with
  | _, OverflowAxis.Scroll => (ScrollDirection.Vertical, o)
  | OverflowAxis.Scroll, _ => (ScrollDirection.Horizontal, o)
  | _, _ => (ScrollDirection.Vertical, Overflow.scroll_y)

/-- The overflow assignment of `configure_overflow_and_wheel_scroll`
(src/src/scrollable.rs lines 86-88), the `on_add` hook of `Scrollable`,
which runs at every scrollbar creation because `Scrollable` is the
relationship target of `Scrollbar`: it unconditionally sets the scrollable
node's overflow to `Overflow::scroll_y()`, regardless of any pre-configured
value. -/
def configure_overflow_and_wheel_scroll (_o : Overflow) : Overflow :=
  Overflow.scroll_y

/-- Scrollbar creation with the `Scrollable` hook's queued command running
before the axis-resolution command of `spawn_thumb_and_observers` (the
order of the `Scrollable::spawn_one` flow): the region's overflow is first
rewritten to `scroll_y`, then the axis is resolved against the rewritten
value. -/
def creation_hook_then_resolve (o : Overflow) : ScrollDirection × Overflow :=
  resolve_direction (configure_overflow_and_wheel_scroll o)

/-- Scrollbar creation with the axis-resolution command running first and
the `Scrollable` hook's command running afterwards: the axis is resolved
against the pre-configured overflow, but the hook then rewrites the
region's overflow to `scroll_y` regardless. -/
def creation_resolve_then_hook (o : Overflow) : ScrollDirection × Overflow :=
  ((resolve_direction o).1,
    configure_overflow_and_wheel_scroll (resolve_direction o).2)

/-- The thumb-length recomputation of `update_scroll_position_and_thumb`
(src/src/lib.rs lines 206-215), run when the scrollable's `ComputedNode`
changed: sets the thumb's size along the active axis to
`(size / content_size) * 100` percent, with no clamping. -/
def update_thumb_length (scrollable_node : Node) (scrollable_cnode : ComputedNode)
    (thumb_node : Node) : Node :=
  if scrollable_node.overflow.y = OverflowAxis.Scroll then
    let ratio : ℚ := scrollable_cnode.size.y / scrollable_cnode.content_size.y
    { thumb_node with height := Val.Percent (ratio * 100) }
  else if scrollable_node.overflow.x = OverflowAxis.Scroll then
    let ratio : ℚ := scrollable_cnode.size.x / scrollable_cnode.content_size.x
    { thumb_node with width := Val.Percent (ratio * 100) }
  else
    thumb_node

/-- Outcome of one invocation of the `scroll_on_click` observer. -/
inductive ClickOutcome
  /-- The handler returned `Ok` without queueing a scroll command. -/
  | dropped
  /-- The click hit the thumb: propagation stopped, no scroll command. -/
  | stopPropagation
  /-- Exactly one scroll command `scroll(scrollable, amount)` was queued. -/
  | scrollBy (amount : ℚ)
  /-- The handler panicked (`px` on a non-`Px` margin). -/
  | panicked
deriving DecidableEq, Repr

/-- The `scroll_on_click` observer of src/src/scrollbar.rs (lines 184-237).
`hit` is the optional hit-test position of the click; `onThumb` is true when
the `q_scrollbar` lookup on the click's target fails, which happens exactly
when the target is the thumb rather than the track.  The geometry is read
from `s` (the same components the `scroll` system later reads). -/
def scroll_on_click (hit : Option Vec2) (onThumb : Bool) (s : ScrollState) : ClickOutcome :=
  match hit with
  | none => ClickOutcome.dropped
  | some click_position =>
    if onThumb then ClickOutcome.stopPropagation
    else if s.scrollable_node.overflow.y = OverflowAxis.Scroll then
      let track_cnode_scroll_height : ℚ :=
        s.track_cnode.size.y -
          (s.track_cnode.border.top + s.track_cnode.border.bottom + s.thumb_cnode.size.y)
      match px s.thumb_node.margin.top with
      | none => ClickOutcome.panicked
      | some top_margin =>
        let top_margin_max : ℚ := s.track_cnode.inverse_scale_factor * track_cnode_scroll_height
        let thumb_position : ℚ := top_margin / top_margin_max
        if thumb_position > click_position.y then ClickOutcome.scrollBy s.scrollable_cnode.size.y
        else ClickOutcome.scrollBy (-s.scrollable_cnode.size.y)
    else if s.scrollable_node.overflow.x = OverflowAxis.Scroll then
      let track_cnode_scroll_width : ℚ :=
        s.track_cnode.size.x -
          (s.track_cnode.border.left + s.track_cnode.border.right + s.thumb_cnode.size.x)
      match px s.thumb_node.margin.left with
      | none => ClickOutcome.panicked
      | some left_margin =>
        let left_margin_max : ℚ := s.track_cnode.inverse_scale_factor * track_cnode_scroll_width
        let thumb_position : ℚ := left_margin / left_margin_max
        if thumb_position > click_position.x then ClickOutcome.scrollBy s.scrollable_cnode.size.x
        else ClickOutcome.scrollBy (-s.scrollable_cnode.size.x)
    else
      ClickOutcome.dropped

/-- Outcome of a handler or system invocation: normal return carrying a
value, a recoverable error (the `?` operator on a failed lookup), or a panic
(`unwrap` on a failed lookup, or `px` on a non-`Px` value). -/
inductive HandlerOutcome (α : Type)
  | ok (a : α)
  | recoverableErr
  | panics
deriving DecidableEq, Repr

/-- A queued scroll command `run_system_cached_with(scroll, (scrollable, amount))`;
the entity id is abstracted as a natural number. -/
structure ScrollCmd where
  scrollable : Nat
  amount : ℚ
deriving DecidableEq, Repr

/-- The `scroll_on_drag` observer of src/src/scrollbar.rs (lines 160-181).
Its three query lookups are embedded as `Option`-valued inputs: the thumb's
`ChildOf` parent, the parent's `(Scrollbar, DragSpeed)` pair, and the
scrollable's `Node`.  A failed lookup maps to the recoverable `?` error with
no command queued. -/
def scroll_on_drag (dragDelta : Vec2) (q_child_of : Option Nat)
    (q_scrollbar : Option (Nat × ℚ)) (q_node : Option Node) :
    HandlerOutcome (List ScrollCmd) :=
  match q_child_of with
  | none => HandlerOutcome.recoverableErr
  | some _ =>
    match q_scrollbar with
    | none => HandlerOutcome.recoverableErr
    | some (scrollable, drag_speed) =>
      match q_node with
      | none => HandlerOutcome.recoverableErr
      | some node =>
        let overflow := node.overflow
        if overflow.y = OverflowAxis.Scroll then
          HandlerOutcome.ok [{ scrollable := scrollable, amount := -drag_speed * dragDelta.y }]
        else if overflow.x = OverflowAxis.Scroll then
          HandlerOutcome.ok [{ scrollable := scrollable, amount := -drag_speed * dragDelta.x }]
        else
          HandlerOutcome.ok []

/-- The `scroll` system of src/src/scrollbar.rs including its lookup layer
(lines 248-251): each of the three `Query::get(..)` results is `unwrap`ped,
so a failed lookup is a panic, not a recoverable error. -/
def scroll_system (q_scrollable : Option (ScrollPosition × Node × ComputedNode))
    (q_scrollbar : Option ComputedNode) (q_thumb : Option (Node × ComputedNode))
    (scrollAmount : ℚ) : HandlerOutcome ScrollState :=
  match q_scrollable with
  | none => HandlerOutcome.panics
  | some (pos, node, cnode) =>
    match q_scrollbar with
    | none => HandlerOutcome.panics
    | some track_cnode =>
      match q_thumb with
      | none => HandlerOutcome.panics
      | some (thumb_node, thumb_cnode) =>
        match scroll ⟨pos, node, cnode, track_cnode, thumb_node, thumb_cnode⟩ scrollAmount with
        | none => HandlerOutcome.panics
        | some s => HandlerOutcome.ok s

/-! Named subexpressions of `scroll` and `update_scroll_and_thumb_positions`,
used to state theorems about them. -/

/-- Value `track_cnode_scroll_height` of the vertical branches: track height minus
vertical track borders minus thumb height (physical pixels).  The same
expression is `scaled_drag_length` in `update_scroll_and_thumb_positions`. -/
def track_scroll_extent_y (s : ScrollState) : ℚ :=
  s.track_cnode.size.y -
    (s.track_cnode.border.top + s.track_cnode.border.bottom + s.thumb_cnode.size.y)

/-- Value `track_cnode_scroll_width` of the horizontal branches. -/
def track_scroll_extent_x (s : ScrollState) : ℚ :=
  s.track_cnode.size.x -
    (s.track_cnode.border.left + s.track_cnode.border.right + s.thumb_cnode.size.x)

/-- Value `scrollable_cnode_scroll_height` of `scroll`: viewport extent minus
content extent (note the orientation: negative when the content overflows). -/
def scrollable_scroll_extent_y (s : ScrollState) : ℚ :=
  s.scrollable_cnode.size.y - s.scrollable_cnode.content_size.y

/-- Value `scrollable_cnode_scroll_width` of `scroll`. -/
def scrollable_scroll_extent_x (s : ScrollState) : ℚ :=
  s.scrollable_cnode.size.x - s.scrollable_cnode.content_size.x

/-- Value `top_margin_max` of `scroll` (also `drag_length` of
`update_scroll_and_thumb_positions`): the draggable track length in logical
pixels. -/
def top_margin_max (s : ScrollState) : ℚ :=
  s.track_cnode.inverse_scale_factor * track_scroll_extent_y s

/-- Value `left_margin_max` of `scroll`'s horizontal branch. -/
def left_margin_max (s : ScrollState) : ℚ :=
  s.track_cnode.inverse_scale_factor * track_scroll_extent_x s

/-- Value `scroll_length` of the vertical branch of `update_scroll_and_thumb_positions`:
content extent minus viewport extent, converted to logical pixels. -/
def scroll_length_y (s : ScrollState) : ℚ :=
  s.scrollable_cnode.inverse_scale_factor *
    (s.scrollable_cnode.content_size.y - s.scrollable_cnode.size.y)

/-! Concrete states used by counterexamples and witnesses: device scale 1,
a vertical scrollbar, viewport 100, content 400, track of height 310 with
5px top and bottom borders and a zero-height thumb, so the draggable track
length is 300. -/

/-- Computed node of the example track. -/
def exTrackCNode : ComputedNode :=
  { size := ⟨10, 310⟩, content_size := ⟨10, 310⟩
    border := { left := 0, right := 0, top := 5, bottom := 5 }
    inverse_scale_factor := 1 }

/-- Computed node of the example scrollable: viewport 100, content 400. -/
def exScrollableCNode : ComputedNode :=
  { size := ⟨100, 100⟩, content_size := ⟨400, 400⟩
    border := { left := 0, right := 0, top := 0, bottom := 0 }
    inverse_scale_factor := 1 }

/-- Computed node of the example scrollable with content equal to the
viewport (no overflow). -/
def exScrollableCNodeNoOverflow : ComputedNode :=
  { size := ⟨100, 100⟩, content_size := ⟨100, 100⟩
    border := { left := 0, right := 0, top := 0, bottom := 0 }
    inverse_scale_factor := 1 }

/-- Computed node of the example scrollable with content smaller than the
viewport. -/
def exScrollableCNodeSmallContent : ComputedNode :=
  { size := ⟨100, 100⟩, content_size := ⟨50, 50⟩
    border := { left := 0, right := 0, top := 0, bottom := 0 }
    inverse_scale_factor := 1 }

/-- Node of the example scrollable: vertical scroll overflow, zero margins. -/
def exScrollableNode : Node :=
  { overflow := Overflow.scroll_y
    margin := { left := Val.ZERO, right := Val.ZERO, top := Val.ZERO, bottom := Val.ZERO }
    width := Val.Auto, height := Val.Auto }

/-- Node of the example thumb as spawned for a vertical scrollbar. -/
def exThumbNode : Node :=
  { overflow := { x := OverflowAxis.Visible, y := OverflowAxis.Visible }
    margin := { left := Val.ZERO, right := Val.ZERO, top := Val.ZERO, bottom := Val.ZERO }
    width := Val.Percent 100, height := Val.ZERO }

/-- Computed node of the example thumb (zero height). -/
def exThumbCNode : ComputedNode :=
  { size := ⟨10, 0⟩, content_size := ⟨10, 0⟩
    border := { left := 0, right := 0, top := 0, bottom := 0 }
    inverse_scale_factor := 1 }

/-- Example state: thumb at the top, offset 0. -/
def exState : ScrollState :=
  { pos := ⟨0, 0⟩
    scrollable_node := exScrollableNode
    scrollable_cnode := exScrollableCNode
    track_cnode := exTrackCNode
    thumb_node := exThumbNode
    thumb_cnode := exThumbCNode }

/-- Example state with the thumb 100 logical pixels down the track. -/
def exStateMid : ScrollState :=
  { exState with
    pos := ⟨0, 100⟩
    thumb_node := { exThumbNode with margin := { exThumbNode.margin with top := Val.Px 100 } } }

/-- Example state whose content does not overflow the viewport. -/
def exStateNoOverflow : ScrollState :=
  { exState with scrollable_cnode := exScrollableCNodeNoOverflow }

/-! Bridge lemmas: closed forms of `scroll` and
`update_scroll_and_thumb_positions` on each overflow branch. -/

/-- Closed form of `scroll` when the scrollable node scrolls vertically and
the thumb's top margin is a pixel value. -/
theorem scroll_vertical_spec (s : ScrollState) (d m : ℚ)
    (hy : s.scrollable_node.overflow.y = OverflowAxis.Scroll)
    (hm : s.thumb_node.margin.top = Val.Px m) :
    scroll s d = some
      { s with
        pos := { s.pos with y := s.pos.y - d }
        thumb_node :=
          { s.thumb_node with
            margin :=
              { s.thumb_node.margin with
                top := Val.Px (max 0 (min (top_margin_max s)
                  (m + track_scroll_extent_y s / scrollable_scroll_extent_y s * d))) } } } := by
  simp [scroll, px, hy, hm, top_margin_max, track_scroll_extent_y, scrollable_scroll_extent_y]

/-- Closed form of `scroll` when the scrollable node scrolls horizontally
(and not vertically) and the thumb's left margin is a pixel value. -/
theorem scroll_horizontal_spec (s : ScrollState) (d m : ℚ)
    (hy : s.scrollable_node.overflow.y ≠ OverflowAxis.Scroll)
    (hx : s.scrollable_node.overflow.x = OverflowAxis.Scroll)
    (hm : s.thumb_node.margin.left = Val.Px m) :
    scroll s d = some
      { s with
        pos := { s.pos with x := s.pos.x - d }
        thumb_node :=
          { s.thumb_node with
            margin :=
              { s.thumb_node.margin with
                left := Val.Px (max 0 (min (left_margin_max s)
                  (m + track_scroll_extent_x s / scrollable_scroll_extent_x s * d))) } } } := by
  simp [scroll, px, hy, hx, hm, left_margin_max, track_scroll_extent_x,
    scrollable_scroll_extent_x]

/-- Function `scroll` is the identity when neither overflow axis is set to scroll. -/
theorem scroll_inactive_spec (s : ScrollState) (d : ℚ)
    (hy : s.scrollable_node.overflow.y ≠ OverflowAxis.Scroll)
    (hx : s.scrollable_node.overflow.x ≠ OverflowAxis.Scroll) :
    scroll s d = some s := by
  simp [scroll, hy, hx]

/-- Closed form of `update_scroll_and_thumb_positions` on the vertical
branch when the scroll length is nonnegative (so Rust's `clamp` does not
panic). -/
theorem update_vertical_spec (s : ScrollState)
    (hy : s.scrollable_node.overflow.y = OverflowAxis.Scroll)
    (hsl : 0 ≤ scroll_length_y s) :
    update_scroll_and_thumb_positions s = some
      { s with
        pos := { s.pos with y := max 0 (min (scroll_length_y s) s.pos.y) }
        thumb_node :=
          { s.thumb_node with
            margin :=
              { s.thumb_node.margin with
                top :=
                  if scroll_length_y s ≤ 0 then Val.ZERO
                  else Val.Px (max 0 (min (scroll_length_y s) s.pos.y) / scroll_length_y s *
                    top_margin_max s) } } } := by
  have hnot : ¬ (0 : ℚ) > s.scrollable_cnode.inverse_scale_factor *
      (s.scrollable_cnode.content_size.y - s.scrollable_cnode.size.y) := not_lt.mpr hsl
  simp [update_scroll_and_thumb_positions, rustClamp, hy, hnot, scroll_length_y,
    top_margin_max, track_scroll_extent_y]

/-- C1, counterexample: immediately after `scroll` (the internal scroll
entry point) the offset is NOT within `[0, content_extent - viewport_extent]`:
at a state with viewport 100, content 400 and offset 0, scrolling by 500
leaves the offset at -500, outside `[0, 300]` and nonzero. -/
theorem c1_counterexample :
    (scroll exState 500).map (fun t => t.pos.y) = some (-500) ∧
    exScrollableCNode.content_size.y - exScrollableCNode.size.y = 300 ∧
    ¬ (0 ≤ (-500 : ℚ) ∧ (-500 : ℚ) ≤ 300) ∧ (-500 : ℚ) ≠ 0 := by
  refine ⟨?_, by norm_num [exScrollableCNode], by norm_num, by norm_num⟩
  rw [scroll_vertical_spec exState 500 0 rfl rfl]
  simp only [Option.map_some']
  norm_num [exState]

/-- C1 (amended): `scroll` itself leaves the offset unclamped (it is exactly
`old - delta`); the clamp is applied by the post-layout system
`update_scroll_and_thumb_positions`, after which the offset lies within
`[0, inverse_scale_factor * (content_extent - viewport_extent)]` whenever
`content_extent ≥ viewport_extent`, and equals 0 when the two extents are
equal. -/
theorem c1_offset_clamped_after_update (s : ScrollState) (d m : ℚ)
    (hy : s.scrollable_node.overflow.y = OverflowAxis.Scroll)
    (hm : s.thumb_node.margin.top = Val.Px m)
    (hisf : 0 ≤ s.scrollable_cnode.inverse_scale_factor)
    (hcv : s.scrollable_cnode.size.y ≤ s.scrollable_cnode.content_size.y) :
    ∃ t u, scroll s d = some t ∧ t.pos.y = s.pos.y - d ∧
      update_scroll_and_thumb_positions t = some u ∧
      0 ≤ u.pos.y ∧ u.pos.y ≤ scroll_length_y s ∧
      (s.scrollable_cnode.content_size.y = s.scrollable_cnode.size.y → u.pos.y = 0) := by
  have hsl : 0 ≤ scroll_length_y s := mul_nonneg hisf (sub_nonneg.mpr hcv)
  refine ⟨_, _, scroll_vertical_spec s d m hy hm, rfl,
    update_vertical_spec _ hy hsl, ?_, ?_, ?_⟩
  · show 0 ≤ max 0 (min (scroll_length_y s) (s.pos.y - d))
    exact le_max_left 0 _
  · show max 0 (min (scroll_length_y s) (s.pos.y - d)) ≤ scroll_length_y s
    exact max_le hsl (min_le_left _ _)
  · intro hce
    show max 0 (min (scroll_length_y s) (s.pos.y - d)) = 0
    have h0 : scroll_length_y s = 0 := by
      show s.scrollable_cnode.inverse_scale_factor *
        (s.scrollable_cnode.content_size.y - s.scrollable_cnode.size.y) = 0
      rw [hce]; ring
    rw [h0]
    exact max_eq_left (min_le_left 0 _)

/-- C1, witness: the amended statement at the example state with delta 500. -/
theorem c1_witness :
    ∃ t u, scroll exState 500 = some t ∧ t.pos.y = exState.pos.y - 500 ∧
      update_scroll_and_thumb_positions t = some u ∧
      0 ≤ u.pos.y ∧ u.pos.y ≤ scroll_length_y exState ∧
      (exState.scrollable_cnode.content_size.y = exState.scrollable_cnode.size.y →
        u.pos.y = 0) :=
  c1_offset_clamped_after_update exState 500 0 (by decide) (by decide) (by decide) (by decide)

/-- C2: evaluation at the failing input: a region pre-configured with
horizontal scroll overflow `{x: Scroll, y: Visible}`.  The axis-resolution
match alone resolves Horizontal as the claim states, but the `Scrollable`
`on_add` hook unconditionally rewrites the region's overflow to
`Overflow::scroll_y()`: when its queued command runs first (the
`Scrollable::spawn_one` flow of the repository's horizontal example) the
match then resolves Vertical, and in either command order the region ends
up with `{x: Visible, y: Scroll}` — on which every runtime branch
dispatches vertically — so a pre-configured horizontal axis never survives
scrollbar creation. -/
theorem c2_clobbered_at_horizontal :
    resolve_direction ⟨OverflowAxis.Scroll, OverflowAxis.Visible⟩ =
      (ScrollDirection.Horizontal, ⟨OverflowAxis.Scroll, OverflowAxis.Visible⟩) ∧
    configure_overflow_and_wheel_scroll ⟨OverflowAxis.Scroll, OverflowAxis.Visible⟩ =
      Overflow.scroll_y ∧
    creation_hook_then_resolve ⟨OverflowAxis.Scroll, OverflowAxis.Visible⟩ =
      (ScrollDirection.Vertical, Overflow.scroll_y) ∧
    (creation_resolve_then_hook ⟨OverflowAxis.Scroll, OverflowAxis.Visible⟩).1 =
      ScrollDirection.Horizontal ∧
    (creation_resolve_then_hook ⟨OverflowAxis.Scroll, OverflowAxis.Visible⟩).2 =
      Overflow.scroll_y ∧
    Overflow.scroll_y = ⟨OverflowAxis.Visible, OverflowAxis.Scroll⟩ ∧
    ScrollDirection.Vertical ≠ ScrollDirection.Horizontal := by
  decide

/-- C3, counterexample: with draggable track length 300, content 400,
viewport 100, thumb at 100 and delta 50, `scroll` moves the thumb to 50,
while the claimed formula `clamp(old + (draggable / (content - viewport)) *
delta, ...)` yields 150. -/
theorem c3_counterexample :
    (scroll exStateMid 50).map (fun t => t.thumb_node.margin.top) = some (Val.Px 50) ∧
    max 0 (min (top_margin_max exStateMid)
      (100 + track_scroll_extent_y exStateMid /
        (exStateMid.scrollable_cnode.content_size.y -
          exStateMid.scrollable_cnode.size.y) * 50)) = 150 ∧
    Val.Px (50 : ℚ) ≠ Val.Px (150 : ℚ) := by
  refine ⟨?_, ?_, by simp only [ne_eq, Val.Px.injEq]; norm_num⟩
  · rw [scroll_vertical_spec exStateMid 50 100 rfl rfl]
    simp only [Option.map_some', Option.some.injEq, Val.Px.injEq]
    norm_num [top_margin_max, track_scroll_extent_y, scrollable_scroll_extent_y,
      exStateMid, exState, exTrackCNode, exThumbCNode, exScrollableCNode, min_def, max_def]
  · norm_num [top_margin_max, track_scroll_extent_y, exStateMid, exState,
      exTrackCNode, exThumbCNode, exScrollableCNode, min_def, max_def]

/-- C3 (amended): the thumb's new track position equals
`clamp(old - ratio * delta, 0, draggable_track_length)` with
`ratio = draggable_track_length / (content_extent - viewport_extent)` — the
sign of the thumb movement is opposite the claimed one, consistent with the
offset decreasing by `delta`. -/
theorem c3_thumb_position_formula (s : ScrollState) (d m : ℚ)
    (hy : s.scrollable_node.overflow.y = OverflowAxis.Scroll)
    (hm : s.thumb_node.margin.top = Val.Px m) :
    (scroll s d).map (fun t => t.thumb_node.margin.top) =
      some (Val.Px (max 0 (min (top_margin_max s)
        (m - track_scroll_extent_y s /
          (s.scrollable_cnode.content_size.y - s.scrollable_cnode.size.y) * d)))) := by
  rw [scroll_vertical_spec s d m hy hm]
  have hRX : track_scroll_extent_y s / scrollable_scroll_extent_y s * d =
      -(track_scroll_extent_y s /
        (s.scrollable_cnode.content_size.y - s.scrollable_cnode.size.y) * d) := by
    rw [show scrollable_scroll_extent_y s =
      -(s.scrollable_cnode.content_size.y - s.scrollable_cnode.size.y) from by
        show s.scrollable_cnode.size.y - s.scrollable_cnode.content_size.y = _
        ring]
    rw [div_neg]
    ring
  simp only [Option.map_some']
  rw [hRX, ← sub_eq_add_neg]

/-- C3, witness: the amended formula at the example state with the thumb at
100 and delta 50. -/
theorem c3_witness :
    (scroll exStateMid 50).map (fun t => t.thumb_node.margin.top) =
      some (Val.Px (max 0 (min (top_margin_max exStateMid)
        (100 - track_scroll_extent_y exStateMid /
          (exStateMid.scrollable_cnode.content_size.y -
            exStateMid.scrollable_cnode.size.y) * 50)))) :=
  c3_thumb_position_formula exStateMid 50 100 (by decide) (by decide)

/-- C4, counterexample: with content_extent = viewport_extent = 100 and
offset 0, `scroll` with delta 50 is NOT a no-op: the offset becomes -50.
(The function has no guard on the scroll range; the division is performed
and the offset is decremented unconditionally.) -/
theorem c4_counterexample :
    exStateNoOverflow.scrollable_cnode.content_size.y ≤
      exStateNoOverflow.scrollable_cnode.size.y ∧
    exStateNoOverflow.pos.y = 0 ∧
    (scroll exStateNoOverflow 50).map (fun t => t.pos.y) = some (-50) ∧
    (-50 : ℚ) ≠ 0 := by
  refine ⟨by norm_num [exStateNoOverflow, exState, exScrollableCNodeNoOverflow], rfl, ?_,
    by norm_num⟩
  rw [scroll_vertical_spec exStateNoOverflow 50 0 rfl rfl]
  simp only [Option.map_some']
  norm_num [exStateNoOverflow, exState]

/-- C4 (amended): `scroll` applies the delta unguarded even without
overflow; when `content_extent = viewport_extent` the subsequent post-layout
update clamps the offset back to 0 and zeroes the thumb margin, restoring
the no-overflow invariant one frame later. -/
theorem c4_restored_by_update (s : ScrollState) (d m : ℚ)
    (hy : s.scrollable_node.overflow.y = OverflowAxis.Scroll)
    (hm : s.thumb_node.margin.top = Val.Px m)
    (hce : s.scrollable_cnode.content_size.y = s.scrollable_cnode.size.y) :
    ∃ t u, scroll s d = some t ∧ t.pos.y = s.pos.y - d ∧
      update_scroll_and_thumb_positions t = some u ∧
      u.pos.y = 0 ∧ u.thumb_node.margin.top = Val.Px 0 := by
  have h0 : scroll_length_y s = 0 := by
    show s.scrollable_cnode.inverse_scale_factor *
      (s.scrollable_cnode.content_size.y - s.scrollable_cnode.size.y) = 0
    rw [hce]; ring
  have hsl : 0 ≤ scroll_length_y s := le_of_eq h0.symm
  refine ⟨_, _, scroll_vertical_spec s d m hy hm, rfl,
    update_vertical_spec _ hy hsl, ?_, ?_⟩
  · show max 0 (min (scroll_length_y s) (s.pos.y - d)) = 0
    rw [h0]
    exact max_eq_left (min_le_left 0 _)
  · show (if scroll_length_y s ≤ 0 then Val.ZERO
      else Val.Px (max 0 (min (scroll_length_y s) (s.pos.y - d)) / scroll_length_y s *
        top_margin_max s)) = Val.Px 0
    rw [if_pos (le_of_eq h0)]
    rfl

/-- C4, witness: the amended statement at the no-overflow example state with
delta 50. -/
theorem c4_witness :
    ∃ t u, scroll exStateNoOverflow 50 = some t ∧
      t.pos.y = exStateNoOverflow.pos.y - 50 ∧
      update_scroll_and_thumb_positions t = some u ∧
      u.pos.y = 0 ∧ u.thumb_node.margin.top = Val.Px 0 :=
  c4_restored_by_update exStateNoOverflow 50 0 (by decide) (by decide) (by decide)

/-- C5: round trip: applying `scroll` with delta `d` and then with `-d`,
with both the thumb position and its intermediate value strictly interior to
`[0, draggable_track_length]`, restores the offset and the thumb
track-position exactly (the offset needs no interiority: `scroll` never
clamps it). -/
theorem c5_round_trip (s : ScrollState) (d m : ℚ)
    (hy : s.scrollable_node.overflow.y = OverflowAxis.Scroll)
    (hm : s.thumb_node.margin.top = Val.Px m)
    (h1 : 0 < m) (h2 : m < top_margin_max s)
    (h3 : 0 < m + track_scroll_extent_y s / scrollable_scroll_extent_y s * d)
    (h4 : m + track_scroll_extent_y s / scrollable_scroll_extent_y s * d < top_margin_max s) :
    ∃ t r, scroll s d = some t ∧ scroll t (-d) = some r ∧
      r.pos.y = s.pos.y ∧ r.thumb_node.margin.top = s.thumb_node.margin.top := by
  refine ⟨_, _, scroll_vertical_spec s d m hy hm,
    scroll_vertical_spec _ (-d)
      (max 0 (min (top_margin_max s)
        (m + track_scroll_extent_y s / scrollable_scroll_extent_y s * d))) hy rfl,
    ?_, ?_⟩
  · show s.pos.y - d - -d = s.pos.y
    ring
  · show Val.Px (max 0 (min (top_margin_max s)
      (max 0 (min (top_margin_max s)
        (m + track_scroll_extent_y s / scrollable_scroll_extent_y s * d)) +
       track_scroll_extent_y s / scrollable_scroll_extent_y s * (-d)))) =
      s.thumb_node.margin.top
    rw [min_eq_right (le_of_lt h4), max_eq_right (le_of_lt h3)]
    rw [show m + track_scroll_extent_y s / scrollable_scroll_extent_y s * d +
        track_scroll_extent_y s / scrollable_scroll_extent_y s * (-d) = m from by ring]
    rw [min_eq_right (le_of_lt h2), max_eq_right (le_of_lt h1), hm]

/-- C5, witness: round trip at the example state with the thumb at 100 and
delta 50. -/
theorem c5_witness :
    ∃ t r, scroll exStateMid 50 = some t ∧ scroll t (-50) = some r ∧
      r.pos.y = exStateMid.pos.y ∧
      r.thumb_node.margin.top = exStateMid.thumb_node.margin.top :=
  c5_round_trip exStateMid 50 100 rfl rfl (by norm_num)
    (by norm_num [top_margin_max, track_scroll_extent_y, exStateMid, exState,
      exTrackCNode, exThumbCNode])
    (by norm_num [top_margin_max, track_scroll_extent_y, scrollable_scroll_extent_y,
      exStateMid, exState, exTrackCNode, exThumbCNode, exScrollableCNode])
    (by norm_num [top_margin_max, track_scroll_extent_y, scrollable_scroll_extent_y,
      exStateMid, exState, exTrackCNode, exThumbCNode, exScrollableCNode])

/-- C6, counterexample: with the offset at 0 and the thumb at 0, a further
negative-direction delta (positive `scroll` argument, which decreases the
offset) does NOT leave the offset at 0 immediately after `scroll`: it
becomes -1. -/
theorem c6_counterexample :
    exState.pos.y = 0 ∧ (0 : ℚ) < 1 ∧
    (scroll exState 1).map (fun t => t.pos.y) = some (-1) ∧ (-1 : ℚ) ≠ 0 := by
  refine ⟨rfl, by norm_num, ?_, by norm_num⟩
  rw [scroll_vertical_spec exState 1 0 rfl rfl]
  simp only [Option.map_some']
  norm_num [exState]

/-- C6 (amended): once the offset is 0 and the thumb margin is 0, a further
nonnegative delta through `scroll` keeps the thumb margin at 0 but sets the
offset to `-delta`; the post-layout update then clamps the offset back to 0,
with the thumb margin still 0. -/
theorem c6_at_lower_bound (s : ScrollState) (d : ℚ)
    (hy : s.scrollable_node.overflow.y = OverflowAxis.Scroll)
    (hp : s.pos.y = 0)
    (hm : s.thumb_node.margin.top = Val.Px 0)
    (hd : 0 ≤ d)
    (hts : 0 ≤ track_scroll_extent_y s)
    (hisf : 0 ≤ s.scrollable_cnode.inverse_scale_factor)
    (hcv : s.scrollable_cnode.size.y ≤ s.scrollable_cnode.content_size.y) :
    ∃ t u, scroll s d = some t ∧ t.pos.y = -d ∧ t.thumb_node.margin.top = Val.Px 0 ∧
      update_scroll_and_thumb_positions t = some u ∧
      u.pos.y = 0 ∧ u.thumb_node.margin.top = Val.Px 0 := by
  have hsce : scrollable_scroll_extent_y s ≤ 0 := by
    show s.scrollable_cnode.size.y - s.scrollable_cnode.content_size.y ≤ 0
    exact sub_nonpos.mpr hcv
  have hRd : track_scroll_extent_y s / scrollable_scroll_extent_y s * d ≤ 0 :=
    mul_nonpos_of_nonpos_of_nonneg (div_nonpos_iff.mpr (Or.inl ⟨hts, hsce⟩)) hd
  have hsl : 0 ≤ scroll_length_y s := mul_nonneg hisf (sub_nonneg.mpr hcv)
  have hclamp : max 0 (min (scroll_length_y s) (s.pos.y - d)) = 0 := by
    rw [hp, zero_sub]
    exact max_eq_left (le_trans (min_le_right _ _) (neg_nonpos.mpr hd))
  refine ⟨_, _, scroll_vertical_spec s d 0 hy hm, ?_, ?_,
    update_vertical_spec _ hy hsl, ?_, ?_⟩
  · show s.pos.y - d = -d
    rw [hp]; ring
  · show Val.Px (max 0 (min (top_margin_max s)
      (0 + track_scroll_extent_y s / scrollable_scroll_extent_y s * d))) = Val.Px 0
    rw [zero_add, max_eq_left (le_trans (min_le_right _ _) hRd)]
  · exact hclamp
  · show (if scroll_length_y s ≤ 0 then Val.ZERO
      else Val.Px (max 0 (min (scroll_length_y s) (s.pos.y - d)) / scroll_length_y s *
        top_margin_max s)) = Val.Px 0
    by_cases hsl0 : scroll_length_y s ≤ 0
    · rw [if_pos hsl0]; rfl
    · rw [if_neg hsl0, hclamp, zero_div, zero_mul]

/-- C6, witness: the amended statement at the example state with delta 1. -/
theorem c6_witness :
    ∃ t u, scroll exState 1 = some t ∧ t.pos.y = -1 ∧
      t.thumb_node.margin.top = Val.Px 0 ∧
      update_scroll_and_thumb_positions t = some u ∧
      u.pos.y = 0 ∧ u.thumb_node.margin.top = Val.Px 0 :=
  c6_at_lower_bound exState 1 rfl rfl rfl (by norm_num)
    (by norm_num [track_scroll_extent_y, exState, exTrackCNode, exThumbCNode])
    (by norm_num [exState, exScrollableCNode])
    (by norm_num [exState, exScrollableCNode])

/-- C7: after a geometry-changed update, the thumb's length fraction is
exactly `viewport_extent / content_extent` along the active axis (set as a
percentage), with no clamping: when the content is smaller than the viewport
the fraction exceeds 1. -/
theorem c7_thumb_length_fraction (n : Node) (c : ComputedNode) (t : Node)
    (hy : n.overflow.y = OverflowAxis.Scroll) :
    (update_thumb_length n c t).height = Val.Percent (c.size.y / c.content_size.y * 100) ∧
    (0 < c.content_size.y → c.content_size.y < c.size.y →
      1 < c.size.y / c.content_size.y) := by
  constructor
  · simp [update_thumb_length, hy]
  · intro hpos hlt
    exact (one_lt_div hpos).mpr hlt

/-- C7, witness: with viewport 100 and content 50 the thumb length is set to
200 percent of the track, a fraction exceeding 1. -/
theorem c7_witness :
    (update_thumb_length exScrollableNode exScrollableCNodeSmallContent exThumbNode).height =
      Val.Percent (exScrollableCNodeSmallContent.size.y /
        exScrollableCNodeSmallContent.content_size.y * 100) ∧
    (1 : ℚ) < exScrollableCNodeSmallContent.size.y /
      exScrollableCNodeSmallContent.content_size.y :=
  ⟨(c7_thumb_length_fraction exScrollableNode exScrollableCNodeSmallContent exThumbNode
      rfl).1,
   (c7_thumb_length_fraction exScrollableNode exScrollableCNodeSmallContent exThumbNode
      rfl).2 (by norm_num [exScrollableCNodeSmallContent])
      (by norm_num [exScrollableCNodeSmallContent])⟩

/-- C8: a click whose hit-test target is the thumb stops propagation and
never queues a page-jump; a trough click strictly after the thumb's position
fraction queues exactly one jump of one viewport extent forward (the offset
increases by the viewport extent), and a click strictly before it queues one
jump backward (the offset decreases by the viewport extent). -/
theorem c8_click_disambiguation (hit : Vec2) (s : ScrollState) (m : ℚ)
    (hy : s.scrollable_node.overflow.y = OverflowAxis.Scroll)
    (hm : s.thumb_node.margin.top = Val.Px m) :
    (scroll_on_click (some hit) true s = ClickOutcome.stopPropagation) ∧
    (∀ (h : Option Vec2) (amt : ℚ), scroll_on_click h true s ≠ ClickOutcome.scrollBy amt) ∧
    (m / top_margin_max s < hit.y →
      scroll_on_click (some hit) false s =
        ClickOutcome.scrollBy (-s.scrollable_cnode.size.y) ∧
      (scroll s (-s.scrollable_cnode.size.y)).map (fun r => r.pos.y) =
        some (s.pos.y + s.scrollable_cnode.size.y)) ∧
    (hit.y < m / top_margin_max s →
      scroll_on_click (some hit) false s = ClickOutcome.scrollBy s.scrollable_cnode.size.y ∧
      (scroll s s.scrollable_cnode.size.y).map (fun r => r.pos.y) =
        some (s.pos.y - s.scrollable_cnode.size.y)) := by
  refine ⟨rfl, ?_, ?_, ?_⟩
  · intro h amt
    cases h with
    | none => exact fun hcon => ClickOutcome.noConfusion hcon
    | some c => exact fun hcon => ClickOutcome.noConfusion hcon
  · intro hlt
    constructor
    · show scroll_on_click (some hit) false s = _
      simp only [scroll_on_click, hm, px, hy, Bool.false_eq_true, if_false, if_true]
      simp only [top_margin_max, track_scroll_extent_y] at hlt
      rw [if_neg (not_lt.mpr (le_of_lt hlt))]
    · rw [scroll_vertical_spec s (-s.scrollable_cnode.size.y) m hy hm]
      simp only [Option.map_some', Option.some.injEq]
      show s.pos.y - -s.scrollable_cnode.size.y = _
      ring
  · intro hlt
    constructor
    · show scroll_on_click (some hit) false s = _
      simp only [scroll_on_click, hm, px, hy, Bool.false_eq_true, if_false, if_true]
      simp only [top_margin_max, track_scroll_extent_y] at hlt
      rw [if_pos hlt]
    · rw [scroll_vertical_spec s s.scrollable_cnode.size.y m hy hm]
      simp only [Option.map_some', Option.some.injEq]

/-- C8, witness: at the example state with the thumb fraction 1/3, a trough
click at fraction 1/2 scrolls forward by one viewport extent. -/
theorem c8_witness :
    scroll_on_click (some ⟨0, 1 / 2⟩) false exStateMid =
      ClickOutcome.scrollBy (-exStateMid.scrollable_cnode.size.y) ∧
    (scroll exStateMid (-exStateMid.scrollable_cnode.size.y)).map (fun r => r.pos.y) =
      some (exStateMid.pos.y + exStateMid.scrollable_cnode.size.y) :=
  (c8_click_disambiguation ⟨0, 1 / 2⟩ exStateMid 100 rfl rfl).2.2.1
    (by norm_num [top_margin_max, track_scroll_extent_y, exStateMid, exState,
      exTrackCNode, exThumbCNode])

/-- C9, counterexample: the `scroll` system `unwrap`s its lookups: when its
scrollable lookup fails it panics instead of recovering. -/
theorem c9_counterexample :
    scroll_system none none none 0 = HandlerOutcome.panics := rfl

/-- C9 (amended): per-event lookup failures inside the observers (here
`scroll_on_drag`, the cited handler) are recoverable: the handler returns an
error and queues no scroll command, so no state is mutated; the deferred
`scroll` system those observers invoke, however, panics when any of its own
lookups fails. -/
theorem c9_lookup_failures :
    (∀ (delta : Vec2) (q2 : Option (Nat × ℚ)) (q3 : Option Node),
      scroll_on_drag delta none q2 q3 = HandlerOutcome.recoverableErr) ∧
    (∀ (delta : Vec2) (p : Nat) (q3 : Option Node),
      scroll_on_drag delta (some p) none q3 = HandlerOutcome.recoverableErr) ∧
    (∀ (delta : Vec2) (p : Nat) (sb : Nat × ℚ),
      scroll_on_drag delta (some p) (some sb) none = HandlerOutcome.recoverableErr) ∧
    (∀ (q2 : Option ComputedNode) (q3 : Option (Node × ComputedNode)) (a : ℚ),
      scroll_system none q2 q3 a = HandlerOutcome.panics) ∧
    (∀ (q1 : ScrollPosition × Node × ComputedNode) (q3 : Option (Node × ComputedNode))
      (a : ℚ), scroll_system (some q1) none q3 a = HandlerOutcome.panics) ∧
    (∀ (q1 : ScrollPosition × Node × ComputedNode) (q2 : ComputedNode) (a : ℚ),
      scroll_system (some q1) (some q2) none a = HandlerOutcome.panics) := by
  refine ⟨fun _ _ _ => rfl, fun _ _ _ => rfl, ?_, fun _ _ _ => rfl, ?_, ?_⟩
  · rintro _ _ ⟨a, b⟩
    rfl
  · rintro ⟨p, n, c⟩ _ _
    rfl
  · rintro ⟨p, n, c⟩ _ _
    rfl

/-- C10: `scroll` on a vertically-scrolling region mutates only the y offset
and the thumb's top margin; on a horizontally-scrolling region only the x
offset and the left margin; with neither overflow axis set to scroll it
changes nothing. -/
theorem c10_frame_effect (s : ScrollState) (d : ℚ) :
    (∀ m, s.scrollable_node.overflow.y = OverflowAxis.Scroll →
      s.thumb_node.margin.top = Val.Px m →
      ∃ t, scroll s d = some t ∧
        t.pos.x = s.pos.x ∧
        t.thumb_node.margin.left = s.thumb_node.margin.left ∧
        t.thumb_node.margin.right = s.thumb_node.margin.right ∧
        t.thumb_node.margin.bottom = s.thumb_node.margin.bottom ∧
        t.thumb_node.width = s.thumb_node.width ∧
        t.thumb_node.height = s.thumb_node.height ∧
        t.thumb_node.overflow = s.thumb_node.overflow ∧
        t.scrollable_node = s.scrollable_node ∧
        t.scrollable_cnode = s.scrollable_cnode ∧
        t.track_cnode = s.track_cnode ∧
        t.thumb_cnode = s.thumb_cnode) ∧
    (∀ m, s.scrollable_node.overflow.y ≠ OverflowAxis.Scroll →
      s.scrollable_node.overflow.x = OverflowAxis.Scroll →
      s.thumb_node.margin.left = Val.Px m →
      ∃ t, scroll s d = some t ∧
        t.pos.y = s.pos.y ∧
        t.thumb_node.margin.top = s.thumb_node.margin.top ∧
        t.thumb_node.margin.right = s.thumb_node.margin.right ∧
        t.thumb_node.margin.bottom = s.thumb_node.margin.bottom ∧
        t.thumb_node.width = s.thumb_node.width ∧
        t.thumb_node.height = s.thumb_node.height ∧
        t.thumb_node.overflow = s.thumb_node.overflow ∧
        t.scrollable_node = s.scrollable_node ∧
        t.scrollable_cnode = s.scrollable_cnode ∧
        t.track_cnode = s.track_cnode ∧
        t.thumb_cnode = s.thumb_cnode) ∧
    (s.scrollable_node.overflow.y ≠ OverflowAxis.Scroll →
      s.scrollable_node.overflow.x ≠ OverflowAxis.Scroll →
      scroll s d = some s) := by
  refine ⟨?_, ?_, ?_⟩
  · intro m hy hm
    exact ⟨_, scroll_vertical_spec s d m hy hm,
      rfl, rfl, rfl, rfl, rfl, rfl, rfl, rfl, rfl, rfl, rfl⟩
  · intro m hy hx hm
    exact ⟨_, scroll_horizontal_spec s d m hy hx hm,
      rfl, rfl, rfl, rfl, rfl, rfl, rfl, rfl, rfl, rfl, rfl⟩
  · intro hy hx
    exact scroll_inactive_spec s d hy hx

/-- C10, witness: the vertical case at the example state with delta 7. -/
theorem c10_witness :
    ∃ t, scroll exState 7 = some t ∧
      t.pos.x = exState.pos.x ∧
      t.thumb_node.margin.left = exState.thumb_node.margin.left ∧
      t.thumb_node.margin.right = exState.thumb_node.margin.right ∧
      t.thumb_node.margin.bottom = exState.thumb_node.margin.bottom ∧
      t.thumb_node.width = exState.thumb_node.width ∧
      t.thumb_node.height = exState.thumb_node.height ∧
      t.thumb_node.overflow = exState.thumb_node.overflow ∧
      t.scrollable_node = exState.scrollable_node ∧
      t.scrollable_cnode = exState.scrollable_cnode ∧
      t.track_cnode = exState.track_cnode ∧
      t.thumb_cnode = exState.thumb_cnode :=
  (c10_frame_effect exState 7).1 0 rfl rfl

end BevyScrollbar
